import Mathlib

set_option autoImplicit false

/- Shallow embedding of the aiodeepl repository (src/aiodeepl/aioclient.py and
   src/aiodeepl/translator.py): the backoff timer, the asynchronous HTTP
   transport with its retry loop and error classification, and the translator
   facade with its header merge and teardown logic. -/

/-- A Classified Transport Error: `deepl.exceptions.ConnectionException`, carrying a
human-readable message and the boolean `should_retry` flag consulted by the retry
policy. -/
structure ConnectionException where
  message : String
  should_retry : Bool
  deriving DecidableEq

/-- The observable behaviour of one underlying `aiohttp` exchange as seen by
`AioHttpClient._internal_request` (aioclient.py lines 130-154): either a response
object arrives (whose body decode, `response.text(encoding="utf-8")`, may itself
succeed or raise), or the session raises `aiohttp.ServerTimeoutError`,
`aiohttp.ClientConnectionError`, `aiohttp.ClientResponseError`, or some other
unexpected exception. -/
inductive Exchange where
  | response (status : Nat) (decode : Except String String)
  | serverTimeout (msg : String)
  | connectionError (msg : String)
  | responseError (msg : String)
  | otherError (msg : String)

/-- A response payload: the buffered body text (non-streaming), or the live
response handle (streaming). -/
inductive Payload where
  | text (body : String)
  | handle
  deriving DecidableEq

/-- Result of `_internal_request`: the returned `(status, payload)` pair or the
raised `ConnectionException`, together with whether the response connection was
released, i.e. whether `response.close()` ran. -/
structure InternalResult where
  result : Except ConnectionException (Nat × Payload)
  released : Bool

/-- Embedding of `AioHttpClient._internal_request` (aioclient.py lines 123-154).
A streamed response is returned as a live handle without closing; a buffered
response is read as text inside a `try` whose `finally` closes the response, so
the close runs whether or not the decode raises; a decode failure escapes to the
outer `except Exception` clause and becomes a non-retryable `ConnectionException`.
Timeout and connection errors are classified retryable; response-protocol errors
and any other unexpected failure are classified non-retryable. -/
def _internal_request (ex : Exchange) (stream : Bool) : InternalResult :=
  match ex with
  | .response status decode =>
    if stream then ⟨.ok (status, .handle), false⟩
    else
      match decode with
      | .ok body => ⟨.ok (status, .text body), true⟩
      | .error m => ⟨.error ⟨"Unexpected request failure: " ++ m, false⟩, true⟩
  | .serverTimeout m => ⟨.error ⟨"Request timed out: " ++ m, true⟩, false⟩
  | .connectionError m => ⟨.error ⟨"Connection failed: " ++ m, true⟩, false⟩
  | .responseError m => ⟨.error ⟨"Request failed: " ++ m, false⟩, false⟩
  | .otherError m => ⟨.error ⟨"Unexpected request failure: " ++ m, false⟩, false⟩

/-- Header and form-body maps are modelled as association lists, first binding
wins on lookup, matching Python `dict` lookup semantics. -/
abbrev Headers := List (String × String)

/-- Form-encoded body, also a string map. -/
abbrev FormData := List (String × String)

/-- Modelled from the spec: the Request Descriptor built by the wrapped
library's `HttpClient._prepare_request` (not part of this repository) — method,
target URL, optional form body, optional JSON body, header mapping. Immutable
once constructed. -/
structure RequestDescriptor where
  method : String
  url : String
  data : Option FormData
  json : Option FormData
  headers : Headers
  deriving DecidableEq

/-- Modelled from the spec: `HttpClient._prepare_request` of the wrapped library
builds the immutable Request Descriptor from the call's arguments. -/
def _prepare_request (method url : String) (data json : Option FormData)
    (headers : Headers) : RequestDescriptor :=
  ⟨method, url, data, json, headers⟩

/-- Outcome of one attempt inside the retry loop: a Response Outcome
`(status, payload)` or a raised `ConnectionException`. -/
abbrev AttemptOutcome := Except ConnectionException (Nat × Payload)

/-- Modelled from the spec: `HttpClient._should_retry` of the wrapped library.
Retry is declined if the attempt succeeded, or an error occurred but its
retryable flag is false, or the retry count has reached the maximum allowed
retries; otherwise retry is granted. -/
def _should_retry (max_retries : Nat) (outcome : AttemptOutcome)
    (num_retries : Nat) : Bool :=
  match outcome with
  | .ok _ => false
  | .error e => e.should_retry && decide (num_retries < max_retries)

/-- Result of the retry loop: the descriptor passed to each HTTP attempt, in
order, and the final outcome returned or raised to the caller. -/
structure LoopResult where
  attempts : List RequestDescriptor
  outcome : AttemptOutcome

/-- Embedding of the `while True` loop of `AioHttpClient.request_with_backoff`
(aioclient.py lines 70-99). `attempt req n` is the result of
`_internal_request(request, ...)` on the attempt made when the timer has
recorded `n` completed retries; the loop consults `_should_retry` and either
returns/raises, or sleeps (incrementing the retry count) and attempts again. -/
def backoff_loop (max_retries : Nat) (req : RequestDescriptor)
    (attempt : RequestDescriptor → Nat → AttemptOutcome)
    (num_retries : Nat) : LoopResult :=
  if h : _should_retry max_retries (attempt req num_retries) num_retries = true then
    let rest := backoff_loop max_retries req attempt (num_retries + 1)
    ⟨req :: rest.attempts, rest.outcome⟩
  else
    ⟨[req], attempt req num_retries⟩
  termination_by max_retries - num_retries
  decreasing_by
    cases hr : attempt req num_retries with
    | ok v => rw [hr] at h; simp [_should_retry] at h
    | error e =>
      rw [hr] at h
      simp [_should_retry] at h
      omega

/-- Embedding of `AioHttpClient.request_with_backoff` (aioclient.py lines
52-99): builds the Request Descriptor once via `_prepare_request`, then runs the
retry loop from a fresh timer (zero completed retries). -/
def request_with_backoff (max_retries : Nat) (method url : String)
    (data json : Option FormData) (headers : Headers)
    (attempt : RequestDescriptor → Nat → AttemptOutcome) : LoopResult :=
  backoff_loop max_retries (_prepare_request method url data json headers)
    attempt 0

/-- The backoff constants of the timer: `BACKOFF_MULTIPLIER`, `BACKOFF_MAX`,
`BACKOFF_JITTER` (class attributes of the wrapped library's `_BackoffTimer`). -/
structure BackoffParams where
  multiplier : ℚ
  max : ℚ
  jitter : ℚ

/-- The mutable state of `_AioBackoffTimer`: current backoff duration, wake
deadline, number of completed retries. -/
structure BackoffState where
  _backoff : ℚ
  _deadline : ℚ
  _num_retries : Nat

/-- Modelled from the spec: `_BackoffTimer.__init__` of the wrapped library sets
the initial backoff duration to the fixed base value, the initial deadline to
now + base duration, and the retry count to 0. -/
def timer_init (base now : ℚ) : BackoffState :=
  ⟨base, now + base, 0⟩

/-- Embedding of `_AioBackoffTimer.sleep_until_deadline` (aioclient.py lines
15-28), the state update performed after the sleep returns: `now` is the value
of `time.time()` at that moment and `u` is the draw of `random.uniform(-1, 1)`.
In order: the backoff is multiplied by the multiplier and capped at the maximum,
the deadline is recomputed from the new backoff with jitter applied, and the
retry count is incremented. -/
def sleep_until_deadline (p : BackoffParams) (s : BackoffState)
    (now u : ℚ) : BackoffState :=
  let b := min (s._backoff * p.multiplier) p.max
  ⟨b, now + b * (1 + p.jitter * u), s._num_retries + 1⟩

/-- The sequence of timer states across a run of the retry loop: state after `n`
calls to `sleep_until_deadline`, where `now k` and `u k` are the clock reading
and jitter draw of the `k`-th call. -/
def timer_iterate (p : BackoffParams) (now u : Nat → ℚ)
    (s : BackoffState) : Nat → BackoffState
  | 0 => s
  | n + 1 => sleep_until_deadline p (timer_iterate p now u s n) (now n) (u n)

/-- First-binding association-list lookup, the model of Python `dict` access on
`Headers`. -/
def header_get (h : Headers) (k : String) : Option String :=
  match h with
  | [] => none
  | (k2, v) :: rest => if k2 = k then some v else header_get rest k

/-- Embedding of the header merge of `Translator._api_call` (translator.py lines
104-108): the caller's mapping is kept, and the instance's default headers are
added only for keys absent from the caller's mapping. -/
def merge_headers (h self_headers : Headers) : Headers :=
  h ++ self_headers.filter (fun kv => (header_get h kv.1).isNone)

/-- Embedding of `Translator.__init__`'s default headers (translator.py line
66): the Authorization header derived from the authentication key. -/
def translator_headers (auth_key : String) : Headers :=
  [("Authorization", "DeepL-Auth-Key " ++ auth_key)]

/-- An error surfaced by `_api_call`: a local `ValueError` or a propagated
Classified Transport Error. -/
inductive ApiError where
  | valueError (msg : String)
  | transport (e : ConnectionException)
  deriving DecidableEq

/-- Whether an `_api_call` error is a propagated Classified Transport Error (as
opposed to a local validation error). -/
def ApiError.is_transport : ApiError → Bool
  | .valueError _ => false
  | .transport _ => true

/-- Observable result of `_api_call`: the value returned or error raised,
whether the transport was invoked at all (any network round trip), and the
header mapping handed to the transport when it was. -/
structure ApiCallResult where
  result : Except ApiError (Nat × Payload)
  network_invoked : Bool
  sent_headers : Option Headers

/-- Embedding of `Translator._api_call` (translator.py lines 79-129), with the
transport call abstracted as `transport`: supplying both a form body and a JSON
body raises `ValueError("cannot accept both json and data")` before any network
activity; otherwise the caller headers (defaulted to empty) are merged with the
instance defaults and the request is handed to `request_with_backoff`. -/
def _api_call (self_headers : Headers) (data json : Option FormData)
    (headers : Option Headers)
    (transport : Headers → AttemptOutcome) : ApiCallResult :=
  if data.isSome && json.isSome then
    ⟨.error (.valueError "cannot accept both json and data"), false, none⟩
  else
    let h := merge_headers (headers.getD []) self_headers
    match transport h with
    | .ok r => ⟨.ok r, true, some h⟩
    | .error e => ⟨.error (.transport e), true, some h⟩

/-- Whether the aiohttp session backing the transport is open or closed. -/
inductive SessionState where
  | opened
  | closed
  deriving DecidableEq

/-- A raised Python exception, tagged with whether it is a `RuntimeError`. -/
structure PyExc where
  is_runtime_error : Bool
  msg : String
  deriving DecidableEq

/-- Modelled from the spec: `aiohttp.ClientSession.close` (external library)
releases all pooled connections, is idempotent, and is safe to call multiple
times; it raises nothing. Returns the new state and an optional raised
exception. -/
def session_close : SessionState → SessionState × Option PyExc :=
  fun _ => (.closed, none)

/-- Embedding of `Translator.close` (translator.py lines 145-146): awaits the
client's close, which closes the underlying session; nothing is caught here. -/
def translator_close (s : SessionState) : SessionState × Option PyExc :=
  session_close s

/-- The environment seen by `Translator.__del__`: whether
`asyncio.get_event_loop()` succeeds (it raises `RuntimeError` when the scheduler
has already shut down), whether that loop is running, and the exception, if any,
raised while scheduling or running the close on it. -/
structure FinalizeEnv where
  loop_available : Bool
  loop_running : Bool
  close_exc : Option PyExc

/-- The body of the `try` block of `Translator.__del__` (translator.py lines
69-74): the exception it raises, if any. An unavailable scheduler makes
`asyncio.get_event_loop()` itself raise `RuntimeError`; otherwise the close is
scheduled (`create_task` on a running loop, `run_until_complete` on an idle
one) and any exception of that step propagates. -/
def del_try_block (env : FinalizeEnv) : Option PyExc :=
  if env.loop_available then env.close_exc
  else some ⟨true, "no event loop"⟩

/-- Observable outcome of `Translator.__del__`: the exception escaping the
finalizer, if any, and whether anything was logged by its handler. -/
structure DelOutcome where
  raised : Option PyExc
  logged : Bool
  deriving DecidableEq

/-- Embedding of `Translator.__del__` (translator.py lines 68-76): the `try`
block is guarded by `except RuntimeError: pass`, so a `RuntimeError` from any
step is silently swallowed (nothing is logged), and any other exception
propagates. -/
def translator_del (env : FinalizeEnv) : DelOutcome :=
  match del_try_block env with
  | none => ⟨none, false⟩
  | some e => if e.is_runtime_error then ⟨none, false⟩ else ⟨some e, false⟩

/-- C3: for every single HTTP attempt, a failure is raised as a Classified
Transport Error whose retryable flag is true exactly when the failure is a
server-side timeout or a connection-level failure, and false when it is a
response-protocol error or any other unexpected failure during the exchange
(including a body-decode failure). -/
theorem internal_request_classification (ex : Exchange) (stream : Bool) :
    (∀ e, (_internal_request ex stream).result = .error e →
      (e.should_retry = true ↔
        (∃ m, ex = .serverTimeout m) ∨ (∃ m, ex = .connectionError m))) ∧
    ((∃ m, ex = .serverTimeout m) ∨ (∃ m, ex = .connectionError m) ∨
        (∃ m, ex = .responseError m) ∨ (∃ m, ex = .otherError m) →
      ∃ e, (_internal_request ex stream).result = .error e) := by
  constructor
  · intro e he
    cases ex with
    | response status decode =>
      constructor
      · intro hretry
        exfalso
        by_cases hs : stream
        · simp [_internal_request, hs] at he
        · cases decode with
          | ok body => simp [_internal_request, hs] at he
          | error m =>
            simp [_internal_request, hs] at he
            rw [← he] at hretry
            simp at hretry
      · rintro (⟨m, hm⟩ | ⟨m, hm⟩) <;> exact Exchange.noConfusion hm
    | serverTimeout m =>
      simp [_internal_request] at he
      rw [← he]
      simp
    | connectionError m =>
      simp [_internal_request] at he
      rw [← he]
      simp
    | responseError m =>
      simp [_internal_request] at he
      rw [← he]
      constructor
      · intro hfalse; exact absurd hfalse (by simp)
      · rintro (⟨m2, hm⟩ | ⟨m2, hm⟩) <;> exact Exchange.noConfusion hm
    | otherError m =>
      simp [_internal_request] at he
      rw [← he]
      constructor
      · intro hfalse; exact absurd hfalse (by simp)
      · rintro (⟨m2, hm⟩ | ⟨m2, hm⟩) <;> exact Exchange.noConfusion hm
  · rintro (⟨m, hm⟩ | ⟨m, hm⟩ | ⟨m, hm⟩ | ⟨m, hm⟩) <;> subst hm <;>
      exact ⟨_, rfl⟩

/-- Witness for C3 at a concrete timeout failure. -/
theorem internal_request_classification_witness :
    (⟨"Request timed out: t", true⟩ : ConnectionException).should_retry = true ↔
      (∃ m, Exchange.serverTimeout "t" = .serverTimeout m) ∨
      (∃ m, Exchange.serverTimeout "t" = .connectionError m) :=
  (internal_request_classification (.serverTimeout "t") false).1
    ⟨"Request timed out: t", true⟩ rfl

/-- C6: for every non-streaming request in which a response is obtained, the
connection is released on every path — both when the body decodes to a string
(and the `(status, text)` pair is returned) and when the decode raises (and the
failure is surfaced as a non-retryable transport error). -/
theorem internal_request_no_leak (status : Nat) (decode : Except String String)
    (body m : String) :
    (_internal_request (.response status decode) false).released = true ∧
    (_internal_request (.response status (.ok body)) false).result =
      .ok (status, .text body) ∧
    (_internal_request (.response status (.error m)) false).result =
      .error ⟨"Unexpected request failure: " ++ m, false⟩ := by
  refine ⟨?_, rfl, rfl⟩
  cases decode <;> rfl

/-- One-step unfolding of `backoff_loop` when retry is granted. -/
theorem backoff_loop_retry (max_retries : Nat) (req : RequestDescriptor)
    (attempt : RequestDescriptor → Nat → AttemptOutcome) (num_retries : Nat)
    (h : _should_retry max_retries (attempt req num_retries) num_retries = true) :
    backoff_loop max_retries req attempt num_retries =
      ⟨req :: (backoff_loop max_retries req attempt (num_retries + 1)).attempts,
       (backoff_loop max_retries req attempt (num_retries + 1)).outcome⟩ := by
  rw [backoff_loop]
  simp [h]

/-- One-step unfolding of `backoff_loop` when retry is declined. -/
theorem backoff_loop_stop (max_retries : Nat) (req : RequestDescriptor)
    (attempt : RequestDescriptor → Nat → AttemptOutcome) (num_retries : Nat)
    (h : _should_retry max_retries (attempt req num_retries) num_retries = false) :
    backoff_loop max_retries req attempt num_retries =
      ⟨[req], attempt req num_retries⟩ := by
  rw [backoff_loop]
  simp [h]

/-- When every attempt fails with a retryable error, the loop started after `n`
completed retries performs `max_retries + 1 - n` further attempts and ends with
the last attempt's error. -/
theorem backoff_loop_all_retryable (max_retries : Nat) (req : RequestDescriptor)
    (attempt : RequestDescriptor → Nat → AttemptOutcome)
    (hfail : ∀ k, ∃ e, attempt req k = .error e ∧ e.should_retry = true) :
    ∀ d n, max_retries - n ≤ d → n ≤ max_retries →
      (backoff_loop max_retries req attempt n).attempts.length = max_retries + 1 - n ∧
      (backoff_loop max_retries req attempt n).outcome = attempt req max_retries := by
  intro d
  induction d with
  | zero =>
    intro n hd hn
    have hn' : n = max_retries := by omega
    subst hn'
    obtain ⟨e, he, hr⟩ := hfail n
    have hsr : _should_retry n (attempt req n) n = false := by
      rw [he]
      simp [_should_retry]
    rw [backoff_loop_stop _ _ _ _ hsr]
    simp
  | succ d ih =>
    intro n hd hn
    by_cases hlt : n < max_retries
    · obtain ⟨e, he, hr⟩ := hfail n
      have hsr : _should_retry max_retries (attempt req n) n = true := by
        rw [he]
        simp [_should_retry, hr, hlt]
      rw [backoff_loop_retry _ _ _ _ hsr]
      obtain ⟨ih1, ih2⟩ := ih (n + 1) (by omega) (by omega)
      refine ⟨?_, ih2⟩
      simp only [List.length_cons, ih1]
      omega
    · have hn' : n = max_retries := by omega
      subst hn'
      obtain ⟨e, he, hr⟩ := hfail n
      have hsr : _should_retry n (attempt req n) n = false := by
        rw [he]
        simp [_should_retry]
      rw [backoff_loop_stop _ _ _ _ hsr]
      simp

/-- C1: against an endpoint failing every attempt with a retryable Classified
Transport Error, `request_with_backoff` performs exactly `max_retries + 1`
attempts (so at most that many) and raises the last attempt's error; against an
endpoint failing the first attempt with a non-retryable error, it performs
exactly 1 attempt and raises that error immediately, with 0 retries. -/
theorem request_with_backoff_attempt_count (max_retries : Nat)
    (method url : String) (data json : Option FormData) (headers : Headers)
    (attempt1 attempt2 : RequestDescriptor → Nat → AttemptOutcome)
    (h1 : ∀ k, ∃ e,
      attempt1 (_prepare_request method url data json headers) k = .error e ∧
      e.should_retry = true)
    (h2 : ∃ e,
      attempt2 (_prepare_request method url data json headers) 0 = .error e ∧
      e.should_retry = false) :
    ((request_with_backoff max_retries method url data json headers
        attempt1).attempts.length = max_retries + 1 ∧
      (request_with_backoff max_retries method url data json headers
        attempt1).outcome =
        attempt1 (_prepare_request method url data json headers) max_retries) ∧
    ((request_with_backoff max_retries method url data json headers
        attempt2).attempts.length = 1 ∧
      (request_with_backoff max_retries method url data json headers
        attempt2).outcome =
        attempt2 (_prepare_request method url data json headers) 0) := by
  constructor
  · have h := backoff_loop_all_retryable max_retries
      (_prepare_request method url data json headers) attempt1 h1
      max_retries 0 (by omega) (by omega)
    simpa [request_with_backoff] using h
  · obtain ⟨e, he, hr⟩ := h2
    have hsr : _should_retry max_retries
        (attempt2 (_prepare_request method url data json headers) 0) 0 = false := by
      rw [he]
      simp [_should_retry, hr]
    have h := backoff_loop_stop max_retries
      (_prepare_request method url data json headers) attempt2 0 hsr
    simp [request_with_backoff, h]

/-- Witness for C1: two retries allowed; a permanently timing-out endpoint is
attempted 3 times, a protocol-failing endpoint once. -/
theorem request_with_backoff_attempt_count_witness :
    ((request_with_backoff 2 "POST" "u" none none []
        (fun _ _ => .error ⟨"timeout", true⟩)).attempts.length = 2 + 1 ∧
      (request_with_backoff 2 "POST" "u" none none []
        (fun _ _ => .error ⟨"timeout", true⟩)).outcome =
        .error ⟨"timeout", true⟩) ∧
    ((request_with_backoff 2 "POST" "u" none none []
        (fun _ _ => .error ⟨"protocol", false⟩)).attempts.length = 1 ∧
      (request_with_backoff 2 "POST" "u" none none []
        (fun _ _ => .error ⟨"protocol", false⟩)).outcome =
        .error ⟨"protocol", false⟩) :=
  request_with_backoff_attempt_count 2 "POST" "u" none none [] _ _
    (fun _ => ⟨⟨"timeout", true⟩, rfl, rfl⟩) ⟨⟨"protocol", false⟩, rfl, rfl⟩

/-- C2: an attempt that succeeds makes the loop decline retry and return that
outcome at once; and `_should_retry` grants retry exactly when the attempt
raised an error whose retryable flag is true and the retry count is still below
the maximum. -/
theorem backoff_retry_decision (max_retries : Nat) (req : RequestDescriptor)
    (attempt : RequestDescriptor → Nat → AttemptOutcome) (n : Nat) :
    (∀ s, attempt req n = .ok s →
      backoff_loop max_retries req attempt n = ⟨[req], .ok s⟩) ∧
    (∀ r : AttemptOutcome, _should_retry max_retries r n = true ↔
      (∃ e, r = .error e ∧ e.should_retry = true) ∧ n < max_retries) := by
  constructor
  · intro s hs
    have hsr : _should_retry max_retries (attempt req n) n = false := by
      rw [hs]
      simp [_should_retry]
    rw [backoff_loop_stop _ _ _ _ hsr, hs]
  · intro r
    cases r with
    | ok v => simp [_should_retry]
    | error e => simp [_should_retry, and_comm]

/-- Witness for C2: a first-attempt success with status 200 and body ok is
returned directly. -/
theorem backoff_retry_decision_witness :
    backoff_loop 3 (_prepare_request "GET" "u" none none [])
      (fun _ _ => .ok (200, .text "ok")) 0 =
      ⟨[_prepare_request "GET" "u" none none []], .ok (200, .text "ok")⟩ :=
  (backoff_retry_decision 3 (_prepare_request "GET" "u" none none [])
    (fun _ _ => .ok (200, .text "ok")) 0).1 (200, .text "ok") rfl

/-- The attempt trace of the loop is some number of copies of the one
descriptor it was given, and at least one attempt is made. -/
theorem backoff_loop_replicate (max_retries : Nat) (req : RequestDescriptor)
    (attempt : RequestDescriptor → Nat → AttemptOutcome) :
    ∀ d n, max_retries - n ≤ d →
      (backoff_loop max_retries req attempt n).attempts =
        List.replicate (backoff_loop max_retries req attempt n).attempts.length
          req ∧
      1 ≤ (backoff_loop max_retries req attempt n).attempts.length := by
  intro d
  induction d with
  | zero =>
    intro n hd
    have hsr : _should_retry max_retries (attempt req n) n = false := by
      cases hr : attempt req n with
      | ok v => simp [_should_retry]
      | error e =>
        simp only [_should_retry]
        rw [decide_eq_false (by omega : ¬ n < max_retries)]
        simp
    rw [backoff_loop_stop _ _ _ _ hsr]
    simp
  | succ d ih =>
    intro n hd
    cases hsr : _should_retry max_retries (attempt req n) n with
    | false =>
      rw [backoff_loop_stop _ _ _ _ hsr]
      simp
    | true =>
      have hlt : n < max_retries := by
        cases hr : attempt req n with
        | ok v => rw [hr] at hsr; simp [_should_retry] at hsr
        | error e =>
          rw [hr] at hsr
          simp [_should_retry] at hsr
          exact hsr.2
      rw [backoff_loop_retry _ _ _ _ hsr]
      obtain ⟨ih1, ih2⟩ := ih (n + 1) (by omega)
      constructor
      · simp only [List.length_cons, List.replicate_succ]
        exact congrArg (List.cons req) ih1
      · simp

/-- C8: in `request_with_backoff` the Request Descriptor is built exactly once,
before the first attempt, and every attempt of the call — the first as well as
every retry — is issued with that same unmutated descriptor. -/
theorem request_descriptor_built_once (max_retries : Nat) (method url : String)
    (data json : Option FormData) (headers : Headers)
    (attempt : RequestDescriptor → Nat → AttemptOutcome) :
    (request_with_backoff max_retries method url data json headers
        attempt).attempts =
      List.replicate
        (request_with_backoff max_retries method url data json headers
          attempt).attempts.length
        (_prepare_request method url data json headers) ∧
    1 ≤ (request_with_backoff max_retries method url data json headers
        attempt).attempts.length := by
  simp only [request_with_backoff]
  exact backoff_loop_replicate max_retries
    (_prepare_request method url data json headers) attempt max_retries 0
    (by omega)

/-- C4: every return of `sleep_until_deadline` performs, in order: multiply the
backoff by the multiplier capped at the ceiling; recompute the deadline as
now + (new backoff) scaled by the jitter factor, which keeps the deadline offset
within [backoff * (1 - jitter), backoff * (1 + jitter)]; and increment the retry
count, so the count read immediately afterwards is the post-increment value. -/
theorem sleep_until_deadline_spec (p : BackoffParams) (s : BackoffState)
    (now u : ℚ) (hu1 : -1 ≤ u) (hu2 : u ≤ 1) (hj : 0 ≤ p.jitter)
    (hb : 0 ≤ s._backoff) (hm : 0 ≤ p.multiplier) (hmax : 0 ≤ p.max) :
    (sleep_until_deadline p s now u)._backoff =
      min (s._backoff * p.multiplier) p.max ∧
    (sleep_until_deadline p s now u)._num_retries = s._num_retries + 1 ∧
    (sleep_until_deadline p s now u)._deadline =
      now + (sleep_until_deadline p s now u)._backoff * (1 + p.jitter * u) ∧
    (sleep_until_deadline p s now u)._backoff * (1 - p.jitter) ≤
      (sleep_until_deadline p s now u)._deadline - now ∧
    (sleep_until_deadline p s now u)._deadline - now ≤
      (sleep_until_deadline p s now u)._backoff * (1 + p.jitter) := by
  have hb2 : 0 ≤ min (s._backoff * p.multiplier) p.max :=
    le_min (mul_nonneg hb hm) hmax
  have hbk : (sleep_until_deadline p s now u)._backoff =
      min (s._backoff * p.multiplier) p.max := rfl
  have hdl : (sleep_until_deadline p s now u)._deadline =
      now + min (s._backoff * p.multiplier) p.max * (1 + p.jitter * u) := rfl
  refine ⟨rfl, rfl, rfl, ?_, ?_⟩
  · rw [hbk, hdl]
    have key : 0 ≤ min (s._backoff * p.multiplier) p.max * p.jitter * (1 + u) :=
      mul_nonneg (mul_nonneg hb2 hj) (by linarith)
    nlinarith [key]
  · rw [hbk, hdl]
    have key : 0 ≤ min (s._backoff * p.multiplier) p.max * p.jitter * (1 - u) :=
      mul_nonneg (mul_nonneg hb2 hj) (by linarith)
    nlinarith [key]

/-- Witness for C4 at concrete timer parameters and a concrete jitter draw. -/
theorem sleep_until_deadline_spec_witness :
    (sleep_until_deadline ⟨2, 120, 1⟩ ⟨1, 0, 0⟩ 7 0)._num_retries = 0 + 1 :=
  (sleep_until_deadline_spec ⟨2, 120, 1⟩ ⟨1, 0, 0⟩ 7 0 (by decide) (by decide)
    (by decide) (by decide) (by decide) (by decide)).2.1

/-- One step of the timer keeps the backoff duration nonnegative, below the cap,
and non-decreasing, provided the multiplier is at least one. -/
theorem sleep_backoff_step (p : BackoffParams) (s : BackoffState) (now u : ℚ)
    (hm : 1 ≤ p.multiplier) (h0 : 0 ≤ s._backoff) (hc : s._backoff ≤ p.max) :
    0 ≤ (sleep_until_deadline p s now u)._backoff ∧
    (sleep_until_deadline p s now u)._backoff ≤ p.max ∧
    s._backoff ≤ (sleep_until_deadline p s now u)._backoff := by
  have hm0 : (0 : ℚ) ≤ p.multiplier := le_trans zero_le_one hm
  exact ⟨le_min (mul_nonneg h0 hm0) (le_trans h0 hc), min_le_right _ _,
    le_min (le_mul_of_one_le_right h0 hm) hc⟩

/-- C5: along any run of the timer started from the base duration, the backoff
duration is non-decreasing at every step and never exceeds the cap, for any
clock readings and jitter draws. -/
theorem backoff_duration_monotone_capped (p : BackoffParams) (now u : Nat → ℚ)
    (base t0 : ℚ) (hm : 1 ≤ p.multiplier) (hb0 : 0 ≤ base)
    (hcap : base ≤ p.max) :
    ∀ n, 0 ≤ (timer_iterate p now u (timer_init base t0) n)._backoff ∧
      (timer_iterate p now u (timer_init base t0) n)._backoff ≤ p.max ∧
      (timer_iterate p now u (timer_init base t0) n)._backoff ≤
        (timer_iterate p now u (timer_init base t0) (n + 1))._backoff := by
  intro n
  induction n with
  | zero =>
    refine ⟨hb0, hcap, ?_⟩
    have step := sleep_backoff_step p (timer_init base t0) (now 0) (u 0) hm
      hb0 hcap
    simpa [timer_iterate] using step.2.2
  | succ n ih =>
    obtain ⟨h0, hc, _⟩ := ih
    have step1 := sleep_backoff_step p
      (timer_iterate p now u (timer_init base t0) n) (now n) (u n) hm h0 hc
    have h0' : 0 ≤ (timer_iterate p now u (timer_init base t0) (n + 1))._backoff := by
      simpa [timer_iterate] using step1.1
    have hc' : (timer_iterate p now u (timer_init base t0) (n + 1))._backoff ≤
        p.max := by
      simpa [timer_iterate] using step1.2.1
    have step2 := sleep_backoff_step p
      (timer_iterate p now u (timer_init base t0) (n + 1)) (now (n + 1))
      (u (n + 1)) hm h0' hc'
    refine ⟨h0', hc', ?_⟩
    simpa [timer_iterate] using step2.2.2

/-- Witness for C5 with the concrete multiplier 2, cap 120, base duration 1,
taken at the second step. -/
theorem backoff_duration_monotone_capped_witness :
    0 ≤ (timer_iterate ⟨2, 120, 1⟩ (fun _ => 0) (fun _ => 0)
        (timer_init 1 0) 1)._backoff ∧
    (timer_iterate ⟨2, 120, 1⟩ (fun _ => 0) (fun _ => 0)
        (timer_init 1 0) 1)._backoff ≤ (⟨2, 120, 1⟩ : BackoffParams).max ∧
    (timer_iterate ⟨2, 120, 1⟩ (fun _ => 0) (fun _ => 0)
        (timer_init 1 0) 1)._backoff ≤
      (timer_iterate ⟨2, 120, 1⟩ (fun _ => 0) (fun _ => 0)
        (timer_init 1 0) (1 + 1))._backoff :=
  backoff_duration_monotone_capped ⟨2, 120, 1⟩ (fun _ => 0) (fun _ => 0) 1 0
    (by decide) (by decide) (by decide) 1

/-- C7: supplying both a form-encoded body and a JSON body to `_api_call`
raises the local ValueError synchronously — the transport is never invoked, so
no network round trip happens and nothing can be retried — and this error is
not a Classified Transport Error. -/
theorem api_call_mutual_exclusion (self_headers : Headers) (d j : FormData)
    (headers : Option Headers) (transport : Headers → AttemptOutcome) :
    _api_call self_headers (some d) (some j) headers transport =
      ⟨.error (.valueError "cannot accept both json and data"), false, none⟩ ∧
    (ApiError.valueError "cannot accept both json and data").is_transport =
      false :=
  ⟨rfl, rfl⟩

/-- A key bound in the left list keeps its binding after appending. -/
theorem header_get_append_some (h l : Headers) (k v : String)
    (hk : header_get h k = some v) : header_get (h ++ l) k = some v := by
  induction h with
  | nil => simp [header_get] at hk
  | cons kv rest ih =>
    obtain ⟨k2, v2⟩ := kv
    simp only [List.cons_append, header_get] at hk ⊢
    by_cases hk2 : k2 = k
    · rw [if_pos hk2] at hk ⊢
      exact hk
    · rw [if_neg hk2] at hk ⊢
      exact ih hk

/-- A key absent from the left list is looked up in the right list. -/
theorem header_get_append_none (h l : Headers) (k : String)
    (hk : header_get h k = none) :
    header_get (h ++ l) k = header_get l k := by
  induction h with
  | nil => rfl
  | cons kv rest ih =>
    obtain ⟨k2, v2⟩ := kv
    simp only [List.cons_append, header_get] at hk ⊢
    by_cases hk2 : k2 = k
    · rw [if_pos hk2] at hk
      exact absurd hk (by simp)
    · rw [if_neg hk2] at hk ⊢
      exact ih hk

/-- Filtering out the bindings shadowed by `h` does not change the lookup of a
key absent from `h`. -/
theorem header_get_filter_absent (h l : Headers) (k : String)
    (hk : header_get h k = none) :
    header_get (l.filter (fun kv => (header_get h kv.1).isNone)) k =
      header_get l k := by
  induction l with
  | nil => rfl
  | cons kv rest ih =>
    obtain ⟨k2, v2⟩ := kv
    by_cases hk2 : k2 = k
    · subst hk2
      have hcond : (header_get h k2).isNone = true := by
        rw [hk]
        rfl
      simp only [List.filter_cons, hcond, if_true]
      simp [header_get]
    · cases hcond : (header_get h k2).isNone with
      | true =>
        simp only [List.filter_cons, hcond, if_true]
        simp only [header_get]
        rw [if_neg hk2, if_neg hk2]
        exact ih
      | false =>
        simp only [List.filter_cons, hcond]
        simp only [header_get]
        rw [if_neg hk2]
        simpa using ih

/-- C10: `_api_call` hands the transport the caller's header mapping with the
instance defaults (the Authorization header set at construction) merged in only
for keys the caller did not supply: a caller-supplied binding is preserved
unchanged, and an absent key falls back to the instance default. -/
theorem api_call_header_precedence (auth_key : String) (h : Headers)
    (data : Option FormData) (transport : Headers → AttemptOutcome)
    (k1 k2 v : String) :
    (_api_call (translator_headers auth_key) data none (some h)
        transport).sent_headers =
      some (merge_headers h (translator_headers auth_key)) ∧
    (header_get h k1 = some v →
      header_get (merge_headers h (translator_headers auth_key)) k1 = some v) ∧
    (header_get h k2 = none →
      header_get (merge_headers h (translator_headers auth_key)) k2 =
        header_get (translator_headers auth_key) k2) := by
  refine ⟨?_, ?_, ?_⟩
  · have hcond : (data.isSome && (none : Option FormData).isSome) = false := by
      simp
    simp only [_api_call, hcond, Bool.false_eq_true, if_false, Option.getD_some]
    cases ht : transport (merge_headers h (translator_headers auth_key)) <;>
      simp [ht]
  · intro hk
    exact header_get_append_some h _ k1 v hk
  · intro hk
    have h1 : header_get (merge_headers h (translator_headers auth_key)) k2 =
        header_get
          ((translator_headers auth_key).filter
            (fun kv => (header_get h kv.1).isNone)) k2 :=
      header_get_append_none h _ k2 hk
    rw [h1]
    exact header_get_filter_absent h (translator_headers auth_key) k2 hk

/-- Witness for C10: a caller-supplied Authorization header wins over the
constructed default, and an absent key falls back to the default mapping. -/
theorem api_call_header_precedence_witness :
    header_get
      (merge_headers [("Authorization", "custom")] (translator_headers "K"))
      "Authorization" = some "custom" ∧
    header_get
      (merge_headers [("Authorization", "custom")] (translator_headers "K"))
      "X-Trace" = header_get (translator_headers "K") "X-Trace" :=
  ⟨(api_call_header_precedence "K" [("Authorization", "custom")] none
      (fun _ => .ok (200, .text "ok")) "Authorization" "X-Trace" "custom").2.1
      rfl,
   (api_call_header_precedence "K" [("Authorization", "custom")] none
      (fun _ => .ok (200, .text "ok")) "Authorization" "X-Trace" "custom").2.2
      rfl⟩

/-- Counterexample to C9 as stated: when the scheduler has already shut down
(`asyncio.get_event_loop()` raises `RuntimeError`), the finalizer swallows the
failure but logs nothing — the handler is a bare `pass` — and the same silent
swallowing also happens for a `RuntimeError` arising outside the
scheduler-shutdown case. -/
theorem translator_del_silent :
    (translator_del ⟨false, false, none⟩).raised = none ∧
    (translator_del ⟨false, false, none⟩).logged = false ∧
    (translator_del ⟨true, false, some ⟨true, "loop closed"⟩⟩).raised = none :=
  ⟨rfl, rfl, rfl⟩

/-- C9 (amended): closing the facade closes the underlying transport; closing
twice in a row does not raise; the finalization teardown does not raise when
the scheduler has already shut down, silently (without logging) swallowing any
`RuntimeError` raised during teardown — not only in the shutdown case — while
non-`RuntimeError` failures still propagate; the normal `close` path catches
nothing. -/
theorem translator_teardown_amended (s : SessionState) (env1 env2 : FinalizeEnv)
    (e : PyExc) :
    (translator_close s).1 = SessionState.closed ∧
    (translator_close (translator_close s).1).2 = none ∧
    (env1.loop_available = false →
      (translator_del env1).raised = none ∧
      (translator_del env1).logged = false) ∧
    (del_try_block env2 = some e →
      (translator_del env2).raised =
        if e.is_runtime_error then none else some e) := by
  refine ⟨rfl, rfl, ?_, ?_⟩
  · intro h1
    constructor <;> simp [translator_del, del_try_block, h1]
  · intro h2
    simp only [translator_del, h2]
    cases e.is_runtime_error <;> simp

/-- Witness for C9 (amended): a shut-down scheduler is swallowed silently and a
non-`RuntimeError` close failure propagates. -/
theorem translator_teardown_amended_witness :
    (translator_del ⟨false, false, none⟩).raised = none ∧
    (translator_del ⟨true, true, some ⟨false, "boom"⟩⟩).raised =
      (if (⟨false, "boom"⟩ : PyExc).is_runtime_error then none
        else some ⟨false, "boom"⟩) :=
  ⟨((translator_teardown_amended .opened ⟨false, false, none⟩
      ⟨true, true, some ⟨false, "boom"⟩⟩ ⟨false, "boom"⟩).2.2.1 rfl).1,
   (translator_teardown_amended .opened ⟨false, false, none⟩
      ⟨true, true, some ⟨false, "boom"⟩⟩ ⟨false, "boom"⟩).2.2.2 rfl⟩
